import Mathlib

/-!
Verification development for the billy-b-assistant core: a shallow embedding
of the mouth envelope sync (`src/core/movements.py`), the song-mode beat/tail
sync and playback queue (`src/core/audio_playback.py`), the song metadata
loader (`src/core/audio.py`), and the session post-response and personality
update logic (`src/core/session.py`), together with theorems settling the
frozen claims about them.
-/

namespace Billy

/-! ### movements.py : mouth envelope sync -/

/-- Mouth-sync module state: the globals `_last_flap`, `_mouth_open_until`
and `_last_rms` of `src/core/movements.py`. Times are rationals (seconds). -/
structure MouthState where
  last_flap : ℚ
  mouth_open_until : ℚ
  last_rms : ℚ
  deriving DecidableEq, Repr

/-- An actuation command issued by the mouth sync: `stop_mouth()` is a brake
of the mouth channel, `move_mouth(speed, duration, brake=False)` is a drive. -/
inductive MouthCmd where
  | brake : MouthCmd
  | drive (speedPercent : ℤ) (durationSec : ℚ) (autoBrake : Bool) : MouthCmd
  deriving DecidableEq, Repr

/-- Sum of squared samples of a PCM chunk (int16 samples as integers). -/
def sumSq (audio : List ℤ) : ℤ := (audio.map (fun a => a * a)).sum

/-- `r` is the root-mean-square of `audio`: the nonnegative rational with
`r ^ 2 = mean of squares`. The Python code computes
`np.sqrt(np.mean(audio ** 2))`; since the square root is in general
irrational, theorems take the RMS as a parameter constrained by this
predicate (our concrete chunks are built so the RMS is rational). -/
def IsRmsOf (audio : List ℤ) (r : ℚ) : Prop :=
  0 ≤ r ∧ r ^ 2 * (audio.length : ℚ) = ((sumSq audio : ℤ) : ℚ)

/-- `np.clip(x, lo, hi)`. -/
def np_clip (x lo hi : ℚ) : ℚ := min (max x lo) hi

/-- `np.interp(x, [x0, x1], [y0, y1])` for a two-point table: constant
outside the table, linear inside. -/
def np_interp (x x0 x1 y0 y1 : ℚ) : ℚ :=
  if x < x0 then y0
  else if x1 < x then y1
  else y0 + (x - x0) * (y1 - y0) / (x1 - x0)

/-- `flap_from_pcm_chunk(audio, threshold, min_flap_gap, chunk_ms, ...)` of
`src/core/movements.py`, as a pure function of the chunk, the computed RMS
(`rmsRaw`, see `IsRmsOf`), the current time `now` and the module state.
Returns the new state and the list of motor commands issued.
The dead `if not in globals()` guard is omitted (the global is always
defined); `alpha = 1` and the smoothing line are kept verbatim. -/
def flap_from_pcm_chunk (audio : List ℤ) (rmsRaw : ℚ) (now : ℚ) (st : MouthState)
    (threshold : ℚ) (min_flap_gap : ℚ) (chunk_ms : ℚ) :
    MouthState × List MouthCmd :=
  if audio = [] then (st, [])
  else
    let peak : ℚ := (((audio.map (fun a => |a|)).foldr max 0 : ℤ) : ℚ)
    let alpha : ℚ := 1
    let rms : ℚ := alpha * rmsRaw + (1 - alpha) * st.last_rms
    let st1 : MouthState := { st with last_rms := rms }
    if rms < threshold / 2 ∧ st1.mouth_open_until ≤ now then
      (st1, [MouthCmd.brake])
    else if rms ≤ threshold ∨ now - st1.last_flap < min_flap_gap then
      (st1, [])
    else
      let normalized : ℚ := np_clip (rms / 32768) 0 1
      let _dyn_range : ℚ := peak / (rms + 1 / 100000)
      let speed : ℤ := ⌊np_clip (np_interp normalized (1/200) (3/20) 25 100) 25 100⌋
      let duration_ms : ℚ := np_clip (np_interp normalized (1/200) (3/20) 15 70) 15 chunk_ms
      let duration : ℚ := duration_ms / 1000
      ({ st1 with last_flap := now, mouth_open_until := now + duration },
        [MouthCmd.drive speed duration false])

/-- A 625-sample chunk whose RMS is exactly `163.84 = 0.005 * 32768`
(sum of squares `4096 ^ 2`, mean `4096 ^ 2 / 625`). -/
def chunk005 : List ℤ := 4096 :: List.replicate 624 0

/-- A 25-sample chunk whose RMS is exactly `4915.2 = 0.15 * 32768`
(sum of squares `24576 ^ 2`, mean `24576 ^ 2 / 25`). -/
def chunk015 : List ℤ := 24576 :: List.replicate 24 0

/-! ### movements.py : motor channels (brake idempotence) -/

/-- One GPIO pin as driven by `lgpio`: its PWM duty cycle (`tx_pwm`) and its
written level (`gpio_write`). -/
structure PinState where
  duty : ℚ
  level : ℕ
  deriving DecidableEq, Repr

/-- A motor channel = its two pins (IN1, IN2). -/
structure ChannelState where
  in1 : PinState
  in2 : PinState
  deriving DecidableEq, Repr

/-- `brake_motor(pin1, pin2)`: PWM duty 0 and level 0 on both pins. -/
def brake_motor (_c : ChannelState) : ChannelState := ⟨⟨0, 0⟩, ⟨0, 0⟩⟩

/-- `stop_mouth()` = `brake_motor(MOUTH_IN1, MOUTH_IN2)`. -/
def stop_mouth (c : ChannelState) : ChannelState := brake_motor c

/-- Head channel plus the module-level `head_out` flag of movements.py. -/
structure HeadState where
  channel : ChannelState
  head_out : Bool
  deriving DecidableEq, Repr

/-- `move_head(state)`: with `state="on"` and the head retracted, write
IN2 low, PWM IN1 at `DEFAULT_HEAD_SPEED` then hold at 100 (the background
thread's final state) and set `head_out`; with the head already out, do
nothing. With `state="off"`, brake the channel and clear `head_out`. -/
def move_head (s : HeadState) (state_on : Bool) : HeadState :=
  if state_on then
    if s.head_out then s
    else { channel := ⟨⟨100, s.channel.in1.level⟩, ⟨s.channel.in2.duty, 0⟩⟩,
           head_out := true }
  else { channel := brake_motor s.channel, head_out := false }

/-! ### audio_playback.py : playback queue -/

/-- The `queue.Queue` used as the playback work queue, with the bookkeeping
relevant to `join`/`unfinished_tasks`: `items` is every item ever `put`
(FIFO), `done` the number of `task_done` calls. The single worker processes
items from the front, so the processed items are the first `done` ones. -/
structure PQueue (α : Type) where
  items : List α
  done : ℕ
  deriving DecidableEq, Repr

/-- `unfinished_tasks`: puts minus task-dones. -/
def PQueue.unfinished_tasks {α : Type} (q : PQueue α) : ℕ :=
  q.items.length - q.done

/-- Items still pending (not yet processed). -/
def PQueue.pending {α : Type} (q : PQueue α) : List α :=
  q.items.drop q.done

/-- Items fully processed so far, in FIFO order. -/
def PQueue.processed {α : Type} (q : PQueue α) : List α :=
  q.items.take q.done

/-- `playback_queue.put(x)`. -/
def PQueue.put {α : Type} (q : PQueue α) (x : α) : PQueue α :=
  { q with items := q.items ++ [x] }

/-- One iteration of `_playback_worker`: pop the next pending item, process
it, call `task_done`. A no-op when nothing is pending. -/
def PQueue.worker_step {α : Type} (q : PQueue α) : PQueue α :=
  if q.done < q.items.length then { q with done := q.done + 1 } else q

/-- `AudioPlaybackManager.stop_playback`: drain every pending item with
`get_nowait()` + `task_done()` without executing its side effects (then set
`playback_done_event`, not modelled here). -/
def stop_playback {α : Type} (q : PQueue α) : PQueue α :=
  { q with done := q.items.length }

/-- The exit condition of the wait loop in `play_random_wake_up_clip`:
the loop spins `while unfinished_tasks > already_pending`, so it returns as
soon as `unfinished_tasks ≤ already_pending`. -/
def watermark_wait_returns {α : Type} (already_pending : ℕ) (q : PQueue α) : Prop :=
  q.unfinished_tasks ≤ already_pending

instance {α : Type} (a : ℕ) (q : PQueue α) : Decidable (watermark_wait_returns a q) :=
  inferInstanceAs (Decidable (_ ≤ _))

/-! ### audio_playback.py : song-mode beat/tail sync -/

/-- The per-song beat tracking locals of `_playback_worker`:
`drums_peak`, `drums_peak_time`, `next_beat_time`. -/
structure BeatState where
  drums_peak : ℚ
  drums_peak_time : ℚ
  next_beat_time : ℚ
  deriving DecidableEq, Repr

/-- The beat/tail logic executed for one `("song", ...)` item in
`_playback_worker` (src/core/audio_playback.py lines 112-126): accumulate
the drums-envelope peak, compute the adjusted elapsed time, and on a beat
boundary emit a tail flap iff `drums_peak > 1500` (a hard-coded constant)
and the head is not extended, then reset the peak and advance the boundary
by one beat length. Returns the new state and whether
`move_tail_async(duration=0.2)` was issued. -/
def song_beat_step (beat_length compensate_tail_beats song_start_time : ℚ)
    (head_out : Bool) (now rms_drums : ℚ) (st : BeatState) : BeatState × Bool :=
  let st1 : BeatState :=
    if st.drums_peak < rms_drums then
      { st with drums_peak := rms_drums, drums_peak_time := now }
    else st
  let adjusted_now : ℚ := (now - song_start_time) + compensate_tail_beats * beat_length
  if st1.next_beat_time ≤ adjusted_now then
    ({ st1 with drums_peak := 0, drums_peak_time := 0,
                next_beat_time := st1.next_beat_time + beat_length },
      (if 1500 < st1.drums_peak then true else false) && !head_out)
  else (st1, false)

/-! ### audio.py : song metadata -/

/-- The metadata dict built by `play_song.load_metadata`. `bpm` is an
`Option` because the dict initializes it to Python `None` while every other
field gets a concrete default. -/
structure Metadata where
  bpm : Option ℚ
  head_moves : List (ℚ × ℚ)
  tail_threshold : ℚ
  gain : ℚ
  compensate_tail : ℚ
  half_tempo_tail_flap : Bool
  deriving DecidableEq, Repr

/-- The initial dict of `load_metadata`: bpm None, head_moves empty,
tail_threshold 1500, gain 1.0, compensate_tail 0.0, half_tempo False. -/
def default_metadata : Metadata :=
  { bpm := none, head_moves := [], tail_threshold := 1500, gain := 1,
    compensate_tail := 0, half_tempo_tail_flap := false }

/-- One `key=value` line of `metadata.txt` applied to the dict. `pyFloat`
models Python's `float()` string conversion (its exact semantics are
irrelevant to the claims settled here). -/
def apply_meta_line (pyFloat : String → ℚ) (m : Metadata) (kv : String × String) :
    Metadata :=
  if kv.1 = "head_moves" then
    { m with head_moves := (kv.2.splitOn ",").map (fun v =>
        (pyFloat ((v.splitOn ":").headD ""),
         pyFloat (((v.splitOn ":").drop 1).headD ""))) }
  else if kv.1 = "bpm" then { m with bpm := some (pyFloat kv.2.trim) }
  else if kv.1 = "tail_threshold" then { m with tail_threshold := pyFloat kv.2.trim }
  else if kv.1 = "gain" then { m with gain := pyFloat kv.2.trim }
  else if kv.1 = "compensate_tail" then { m with compensate_tail := pyFloat kv.2.trim }
  else if kv.1 = "half_tempo_tail_flap" then
    { m with half_tempo_tail_flap := kv.2.trim.toLower = "true" }
  else m

/-- `load_metadata(path)` of `play_song` (src/core/audio.py lines 146-172):
an absent file yields the initial dict unchanged; otherwise each `key=value`
line (already split at the first `=`) updates its field. -/
def load_metadata (pyFloat : String → ℚ) :
    Option (List (String × String)) → Metadata
  | none => default_metadata
  | some lines => lines.foldl (apply_meta_line pyFloat) default_metadata

/-- The beat-length computation of `play_song` (src/core/audio.py lines
177-188): `BPM = metadata.get("bpm", 120)` returns the stored value — which
is `None` when no metadata file set it, since the key is always present —
then `beat_length = 60.0 / BPM`, doubled under the half-tempo flag. Dividing
by `None` raises a `TypeError`, modelled as `Except.error`. -/
def play_song_beat_length (m : Metadata) : Except String ℚ :=
  match m.bpm with
  | none => Except.error "TypeError: unsupported operand type for division"
  | some b => Except.ok (if m.half_tempo_tail_flap then 2 * (60 / b) else 60 / b)

/-! ### session.py : post-response restart decision -/

/-- Python `str.strip()` on a list of characters. -/
def py_strip (s : List Char) : List Char :=
  ((s.dropWhile Char.isWhitespace).reverse.dropWhile Char.isWhitespace).reverse

/-- The test `re.search(r"[a-zA-Z]\?\s*$", text.strip())` of
`post_response_handling`: after stripping, the text must end in an ASCII
letter immediately followed by a question mark. -/
def ends_alpha_question (s : List Char) : Bool :=
  match (py_strip s).reverse with
  | '?' :: c :: _ => c.isAlpha
  | _ => false

/-- The spec's wording of the same condition: the accumulated transcript
"ends in a question mark" (ignoring trailing whitespace). Stated separately
so the two conditions can be compared. -/
def spec_ends_in_question_mark (s : List Char) : Bool :=
  match (py_strip s).reverse with
  | '?' :: _ => true
  | _ => false

/-- What `post_response_handling` decides to do. `restart` is the
`await self.start()` follow-up branch; `endSession` covers every other
branch (publish Idle, stop motors, close the connection). -/
inductive PostAction where
  | restart : PostAction
  | endSession : PostAction
  deriving DecidableEq, Repr

/-- The branch structure of `BillySession.post_response_handling`
(src/core/session.py lines 430-456): inactive sessions never restart;
otherwise restart exactly when `run_mode` is falsy (empty), the stripped
transcript matches `[a-zA-Z]\?\s*$`, and the user spoke after the
assistant's last utterance. -/
def post_response_action (session_active : Bool) (run_mode : String)
    (text : List Char) (user_spoke : Bool) : PostAction :=
  if session_active = false then PostAction.endSession
  else if run_mode = "" ∧ (ends_alpha_question text = true ∧ user_spoke = true) then
    PostAction.restart
  else PostAction.endSession

/-! ### session.py : update_personality function-call handler -/

/-- A Python value as delivered by `json.loads` for a function-call
argument. Note Python's `isinstance(val, int)` is also true for `bool`. -/
inductive PyVal where
  | pyInt (n : ℤ) : PyVal
  | pyBool (b : Bool) : PyVal
  | pyStr (s : String) : PyVal
  | pyNone : PyVal
  deriving DecidableEq, Repr

/-- Python's `isinstance(val, int)` (true for ints and bools). -/
def isinstance_int : PyVal → Bool
  | PyVal.pyInt _ => true
  | PyVal.pyBool _ => true
  | _ => false

/-- The PERSONALITY object's trait attributes: `some v` when the attribute
exists (`hasattr`), `none` otherwise. `setattr` stores the value as-is. -/
abbrev TraitMap := String → Option PyVal

/-- One iteration of the loop in the `update_personality` handler
(src/core/session.py lines 280-284): apply the argument iff
`hasattr(PERSONALITY, trait) and isinstance(val, int)` — no range check. -/
def apply_trait_update (traits : TraitMap) (arg : String × PyVal) : TraitMap :=
  if ((traits arg.1).isSome && isinstance_int arg.2) = true then
    fun t => if t = arg.1 then some arg.2 else traits t
  else traits

/-- The whole `update_personality` handler loop over the parsed arguments. -/
def update_personality (traits : TraitMap) (args : List (String × PyVal)) : TraitMap :=
  args.foldl apply_trait_update traits

/-- The last argument value for trait `t` that passes the integer check
(later arguments override earlier ones). -/
def last_int_update : List (String × PyVal) → String → Option PyVal
  | [], _ => none
  | p :: ps, t =>
    match last_int_update ps t with
    | some v => some v
    | none => if (decide (p.1 = t) && isinstance_int p.2) = true then some p.2 else none

/-- A one-trait personality for concrete evaluation: `humor = 50`. -/
def demo_traits : TraitMap :=
  fun t => if t = "humor" then some (PyVal.pyInt 50) else none

/-! ### audio_playback.py : response history rotation -/

/-- `os.replace(src, dst)` guarded by `os.path.exists(src)`, on a file
system mapping the index `i` of `response-i.wav` to its content. -/
def os_replace (fs : ℕ → Option (List ℕ)) (src dst : ℕ) : ℕ → Option (List ℕ) :=
  if (fs src).isSome = true then
    fun k => if k = dst then fs src else if k = src then none else fs k
  else fs

/-- `rotate_and_save_response_audio(audio_bytes)` (src/core/audio_playback.py
lines 205-214): move 2 to 3, then 1 to 2 (each only when the source exists),
then write the new audio to `response-1.wav`. -/
def rotate_and_save_response_audio (fs : ℕ → Option (List ℕ)) (newAudio : List ℕ) :
    ℕ → Option (List ℕ) :=
  let fs1 := os_replace fs 2 3
  let fs2 := os_replace fs1 1 2
  fun k => if k = 1 then some newAudio else fs2 k

/-! ## Theorems -/

/-! ### Helper lemmas -/

theorem sumSq_cons (a : ℤ) (l : List ℤ) : sumSq (a :: l) = a * a + sumSq l := by
  simp [sumSq]

theorem sumSq_replicate_zero (n : ℕ) : sumSq (List.replicate n 0) = 0 := by
  induction n with
  | zero => rfl
  | succ n ih => simpa [List.replicate_succ, sumSq_cons] using ih

theorem sumSq_chunk005 : sumSq chunk005 = 16777216 := by
  rw [chunk005, sumSq_cons, sumSq_replicate_zero]
  norm_num

theorem sumSq_chunk015 : sumSq chunk015 = 603979776 := by
  rw [chunk015, sumSq_cons, sumSq_replicate_zero]
  norm_num

theorem chunk005_length : chunk005.length = 625 := by
  rw [chunk005]
  rw [List.length_cons, List.length_replicate]

theorem chunk015_length : chunk015.length = 25 := by
  rw [chunk015]
  rw [List.length_cons, List.length_replicate]

theorem isRmsOf_chunk005 : IsRmsOf chunk005 (8192 / 50) := by
  refine ⟨by norm_num, ?_⟩
  rw [sumSq_chunk005, chunk005_length]
  norm_num

theorem isRmsOf_chunk015 : IsRmsOf chunk015 (24576 / 5) := by
  refine ⟨by norm_num, ?_⟩
  rw [sumSq_chunk015, chunk015_length]
  norm_num

theorem chunk005_ne_nil : chunk005 ≠ [] := by
  rw [chunk005]
  exact List.cons_ne_nil _ _

theorem chunk015_ne_nil : chunk015 ≠ [] := by
  rw [chunk015]
  exact List.cons_ne_nil _ _

/-! ### C9: empty chunk is a no-op -/

/-- C9: on the empty audio chunk, `flap_from_pcm_chunk` returns immediately:
it issues no drive or brake command and leaves the whole mouth-sync state
(`_last_flap`, `_mouth_open_until`, `_last_rms`) unchanged, for every RMS
value, time, state and configuration. -/
theorem flap_empty_chunk_noop (rmsRaw now : ℚ) (st : MouthState)
    (threshold min_flap_gap chunk_ms : ℚ) :
    flap_from_pcm_chunk [] rmsRaw now st threshold min_flap_gap chunk_ms = (st, []) := by
  rfl

/-! ### C7: silence brakes the mouth -/

/-- C7: for every non-empty chunk whose (smoothed) RMS is below half the
configured threshold while no open-mouth window is active (the current time
is at or past `_mouth_open_until`), `flap_from_pcm_chunk` issues exactly one
brake of the mouth channel and zero drive calls. -/
theorem flap_silence_brakes (audio : List ℤ) (rms now : ℚ) (st : MouthState)
    (threshold min_flap_gap chunk_ms : ℚ)
    (hne : audio ≠ []) (hr : IsRmsOf audio rms)
    (hquiet : rms < threshold / 2) (hopen : st.mouth_open_until ≤ now) :
    (flap_from_pcm_chunk audio rms now st threshold min_flap_gap chunk_ms).2 =
      [MouthCmd.brake] := by
  rw [flap_from_pcm_chunk, if_neg hne]
  have hsm : (1 : ℚ) * rms + (1 - 1) * st.last_rms = rms := by ring
  simp only [hsm]
  rw [if_pos ⟨hquiet, hopen⟩]

/-- Witness for `flap_silence_brakes` at the chunk `[100]` (RMS 100),
threshold 1500, time 10 with no open window. -/
theorem flap_silence_brakes_witness :
    ([100] : List ℤ) ≠ [] ∧ IsRmsOf [100] 100 ∧ (100 : ℚ) < 1500 / 2 ∧
      (MouthState.mk 0 0 0).mouth_open_until ≤ 10 ∧
      (flap_from_pcm_chunk [100] 100 10 ⟨0, 0, 0⟩ 1500 (1/10) 40).2 =
        [MouthCmd.brake] :=
  ⟨by simp, ⟨by norm_num, by simp [sumSq]; norm_num⟩, by norm_num, by norm_num,
    flap_silence_brakes [100] 100 10 ⟨0, 0, 0⟩ 1500 (1/10) 40 (by simp)
      ⟨by norm_num, by simp [sumSq]; norm_num⟩ (by norm_num) (by norm_num)⟩

/-! ### C2: envelope sync at normalized 0.005 and 0.15 -/

/-- C2 counterexample: a chunk whose RMS normalized by 32768 is exactly
0.005 (RMS `163.84 = 8192/50`), with threshold 1500, the inter-flap gap
elapsed (`now = 100`, `_last_flap = 0`) and no open-mouth window, produces
zero drive calls — the code brakes instead, because an RMS of 163.84 is
below the 1500 threshold (and below half of it). The claim's "exactly one
drive call at 25% power for 15 ms" is false at this input. (No chunk of
int16 samples can have constant amplitude and RMS exactly 163.84, since a
constant-amplitude chunk has integer RMS; the chunk used realizes the
claimed RMS exactly.) -/
theorem flap_at_normalized_005_does_not_drive :
    IsRmsOf chunk005 (8192 / 50) ∧
    (8192 / 50 : ℚ) / 32768 = 1 / 200 ∧
    (1 / 10 : ℚ) ≤ 100 - (MouthState.mk 0 0 0).last_flap ∧
    (MouthState.mk 0 0 0).mouth_open_until ≤ 100 ∧
    (flap_from_pcm_chunk chunk005 (8192 / 50) 100 ⟨0, 0, 0⟩ 1500 (1/10) 40).2 =
      [MouthCmd.brake] := by
  refine ⟨isRmsOf_chunk005, by norm_num, by norm_num, by norm_num, ?_⟩
  rw [flap_from_pcm_chunk, if_neg chunk005_ne_nil]
  norm_num

/-- C2 amended: with threshold 1500 and the minimum inter-flap gap elapsed,
a chunk at normalized RMS 0.005 is below the threshold, so no drive is
issued — being below half the threshold with no open-mouth window active it
yields exactly one brake; a chunk at normalized RMS 0.15 yields exactly one
drive call at 100% power with duration 70 ms clamped to the 40 ms chunk
span (i.e. 0.04 s), with auto-brake off. -/
theorem flap_envelope_thresholds (st : MouthState) (now : ℚ)
    (hopen : st.mouth_open_until ≤ now) (hgap : 1/10 ≤ now - st.last_flap) :
    (flap_from_pcm_chunk chunk005 (8192 / 50) now st 1500 (1/10) 40).2 =
      [MouthCmd.brake] ∧
    (flap_from_pcm_chunk chunk015 (24576 / 5) now st 1500 (1/10) 40).2 =
      [MouthCmd.drive 100 (1/25) false] := by
  constructor
  · rw [flap_from_pcm_chunk, if_neg chunk005_ne_nil]
    have hsm : (1 : ℚ) * (8192 / 50) + (1 - 1) * st.last_rms = 8192 / 50 := by ring
    simp only [hsm]
    rw [if_pos ⟨by norm_num, hopen⟩]
  · rw [flap_from_pcm_chunk, if_neg chunk015_ne_nil]
    have hsm : (1 : ℚ) * (24576 / 5) + (1 - 1) * st.last_rms = 24576 / 5 := by ring
    simp only [hsm]
    rw [if_neg (by push_neg; intro h; norm_num at h)]
    rw [if_neg (by push_neg; exact ⟨by norm_num, by linarith⟩)]
    have hnorm : np_clip ((24576 / 5 : ℚ) / 32768) 0 1 = 3/20 := by
      rw [np_clip]
      norm_num
    rw [hnorm]
    have hspeed : np_clip (np_interp (3/20) (1/200) (3/20) 25 100) 25 100 = 100 := by
      rw [np_interp, np_clip]
      norm_num
    have hdur : np_clip (np_interp (3/20) (1/200) (3/20) 15 70) 15 40 = 40 := by
      rw [np_interp, np_clip]
      norm_num
    rw [hspeed, hdur]
    norm_num

/-- Witness for `flap_envelope_thresholds` at `now = 100` from the all-zero
initial mouth state. -/
theorem flap_envelope_thresholds_witness :
    (MouthState.mk 0 0 0).mouth_open_until ≤ 100 ∧
    (1/10 : ℚ) ≤ 100 - (MouthState.mk 0 0 0).last_flap ∧
    ((flap_from_pcm_chunk chunk005 (8192 / 50) 100 ⟨0, 0, 0⟩ 1500 (1/10) 40).2 =
        [MouthCmd.brake] ∧
      (flap_from_pcm_chunk chunk015 (24576 / 5) 100 ⟨0, 0, 0⟩ 1500 (1/10) 40).2 =
        [MouthCmd.drive 100 (1/25) false]) :=
  ⟨by norm_num, by norm_num,
    flap_envelope_thresholds ⟨0, 0, 0⟩ 100 (by norm_num) (by norm_num)⟩

/-! ### C8: brake/stop idempotence -/

/-- C8: brake and stop operations are idempotent and error-free on an
already-stopped target: `brake_motor` applied twice equals applying it once
and leaves an already-braked channel unchanged; likewise `stop_mouth` and
`move_head` with state off; `stop_playback` applied twice equals applying
it once, leaves the pending queue empty, and on an already-empty queue
changes nothing. -/
theorem stop_and_brake_idempotent (c : ChannelState) (s : HeadState)
    (q : PQueue ℕ) :
    brake_motor (brake_motor c) = brake_motor c ∧
    brake_motor ⟨⟨0, 0⟩, ⟨0, 0⟩⟩ = (⟨⟨0, 0⟩, ⟨0, 0⟩⟩ : ChannelState) ∧
    stop_mouth (stop_mouth c) = stop_mouth c ∧
    move_head (move_head s false) false = move_head s false ∧
    stop_playback (stop_playback q) = stop_playback q ∧
    (stop_playback q).pending = [] ∧
    stop_playback (⟨[], 0⟩ : PQueue ℕ) = ⟨[], 0⟩ := by
  refine ⟨rfl, rfl, rfl, rfl, rfl, ?_, rfl⟩
  simp [stop_playback, PQueue.pending]

/-! ### C1: drain-wait semantics -/

/-- When the `playback_queue.join()` condition holds (no unfinished tasks),
every item enqueued as of the call has been processed; this is the half of
the drain-wait property the code gets right. -/
theorem join_wait_processes_all_items {α : Type} (q : PQueue α)
    (hjoin : q.unfinished_tasks = 0) :
    q.processed = q.items := by
  have hlen : q.items.length ≤ q.done := Nat.sub_eq_zero_iff_le.mp hjoin
  rw [PQueue.processed, List.take_of_length_le hlen]

/-- Closed witness instantiating `join_wait_processes_all_items`. -/
theorem join_wait_processes_all_items_witness :
    (⟨[7, 8], 2⟩ : PQueue ℕ).unfinished_tasks = 0 ∧
    (⟨[7, 8], 2⟩ : PQueue ℕ).processed = (⟨[7, 8], 2⟩ : PQueue ℕ).items :=
  ⟨by decide, join_wait_processes_all_items (⟨[7, 8], 2⟩ : PQueue ℕ) (by decide)⟩

/-- C1: the watermark wait of `play_random_wake_up_clip` can return while an
item enqueued before the call is still unprocessed. Concretely: one chunk
(item 0) is already pending, so `already_pending = unfinished_tasks = 1`;
the wake-up clip chunk (item 1) is enqueued; the worker then finishes the
*old* chunk, after which `unfinished_tasks = 1 ≤ already_pending` and the
wait loop exits — yet the clip chunk, enqueued before the wait, is not among
the processed items. This contradicts the drain-wait property and the
code's own comment ("Wait for exactly those new chunks to finish"). -/
theorem wake_up_watermark_returns_early :
    (⟨[0], 0⟩ : PQueue ℕ).unfinished_tasks = 1 ∧
    PQueue.put (⟨[0], 0⟩ : PQueue ℕ) 1 = ⟨[0, 1], 0⟩ ∧
    PQueue.worker_step (⟨[0, 1], 0⟩ : PQueue ℕ) = ⟨[0, 1], 1⟩ ∧
    watermark_wait_returns 1 (⟨[0, 1], 1⟩ : PQueue ℕ) ∧
    1 ∈ (⟨[0, 1], 1⟩ : PQueue ℕ).items ∧
    (⟨[0, 1], 1⟩ : PQueue ℕ).processed = [0] ∧
    1 ∉ (⟨[0, 1], 1⟩ : PQueue ℕ).processed := by
  refine ⟨rfl, rfl, by decide, by decide, by decide, by decide, by decide⟩

/-! ### C3: beat/tail sync ignores the configured threshold -/

/-- C3: at a beat boundary the worker compares the accumulated drums peak
against the hard-coded constant 1500, not against the configured
`tail_threshold` from the song metadata. With `tail_threshold = 3000`, beat
length 1/2, no compensation and the head retracted, a chunk with drums RMS
2000 crossing the boundary issues a tail flap (the peak is then reset and
the boundary advanced by one beat length) even though 2000 does not exceed
the configured threshold 3000 — against the claim, which predicts no flap.
The parsed `tail_threshold` in `play_song` is never used by the worker. -/
theorem beat_flap_ignores_configured_threshold :
    (load_metadata (fun _ => 3000) (some [("tail_threshold", "3000")])).tail_threshold
        = 3000 ∧
    song_beat_step (1/2) 0 0 false (1/2) 2000 ⟨0, 0, 1/2⟩ =
      (⟨0, 0, 1⟩, true) ∧
    ¬((3000 : ℚ) < 2000) := by
  refine ⟨by decide, ?_, by norm_num⟩
  rw [song_beat_step]
  norm_num

/-! ### C4: absent metadata file -/

/-- C4: with the metadata file absent, `load_metadata` returns its initial
dict unchanged — and that dict sets `bpm` to Python `None`, not to 120: the
`metadata.get("bpm", 120)` in `play_song` therefore returns `None` (the key
is present), and the subsequent `beat_length = 60.0 / BPM` raises a
`TypeError` instead of producing the claimed 60/120 seconds. The other
defaults (head_moves empty, tail_threshold 1500, gain 1.0, compensate_tail
0, half-tempo false) do match the claim. -/
theorem load_metadata_absent_file_bpm_none :
    load_metadata (fun _ => 0) none = default_metadata ∧
    (load_metadata (fun _ => 0) none).bpm = none ∧
    (load_metadata (fun _ => 0) none).bpm ≠ some 120 ∧
    (load_metadata (fun _ => 0) none).head_moves = [] ∧
    (load_metadata (fun _ => 0) none).tail_threshold = 1500 ∧
    (load_metadata (fun _ => 0) none).gain = 1 ∧
    (load_metadata (fun _ => 0) none).compensate_tail = 0 ∧
    (load_metadata (fun _ => 0) none).half_tempo_tail_flap = false ∧
    play_song_beat_length (load_metadata (fun _ => 0) none) =
      Except.error "TypeError: unsupported operand type for division" := by
  refine ⟨rfl, rfl, ?_, rfl, rfl, rfl, rfl, rfl, rfl⟩
  simp [load_metadata, default_metadata]

/-! ### C5: post-response restart rule -/

/-- C5 counterexample: the transcript `"What is 5+5?"` ends in a question
mark (per the spec's wording) and the user spoke after the assistant, the
session is active and the run mode unset — yet the code does not restart,
because its regex `[a-zA-Z]\?\s*$` additionally requires an ASCII letter
immediately before the question mark and `5` is not a letter. -/
theorem restart_requires_letter_before_question_mark :
    spec_ends_in_question_mark ("What is 5+5?".toList) = true ∧
    post_response_action true "" ("What is 5+5?".toList) true =
      PostAction.endSession := by
  constructor
  · rfl
  · decide

/-- C5 amended: after a normally completed turn with the session still
active and the run mode unset, the session restarts (start() is invoked
again) if and only if the stripped accumulated transcript ends in an ASCII
letter immediately followed by a question mark and the user spoke after the
assistant's last utterance; in every other case — including an inactive
session, whatever the run mode — no restart occurs and the session is ended
(connection closed, state returns to Idle). -/
theorem post_response_restart_rule :
    (∀ (text : List Char) (user_spoke : Bool),
      (post_response_action true "" text user_spoke = PostAction.restart) ↔
        (ends_alpha_question text = true ∧ user_spoke = true)) ∧
    (∀ (run_mode : String) (text : List Char) (user_spoke : Bool),
      post_response_action false run_mode text user_spoke =
        PostAction.endSession) := by
  constructor
  · intro text user_spoke
    by_cases h : ends_alpha_question text = true ∧ user_spoke = true
    · simp [post_response_action, h]
    · simp only [post_response_action]
      rw [if_neg (by simp), if_neg (fun hc => h hc.2)]
      simp [h]
  · intro run_mode text user_spoke
    simp [post_response_action]

/-! ### C6: update_personality validation -/

/-- C6 counterexample: an `update_personality` event with argument
`humor = 150` — an integer outside `[0, 100]` for a known trait — is applied
and persisted by the handler, leaving the trait at 150: the code checks only
`hasattr` and `isinstance(val, int)` and never validates the range, so the
claimed `[0, 100]` invariant does not hold. -/
theorem personality_update_no_range_check :
    update_personality demo_traits [("humor", PyVal.pyInt 150)] "humor" =
      some (PyVal.pyInt 150) ∧
    ¬((150 : ℤ) ≤ 100) := by
  constructor
  · rfl
  · decide

/-- Knownness of a trait attribute is invariant under one update. -/
theorem apply_trait_update_isSome (traits : TraitMap) (arg : String × PyVal)
    (t : String) :
    ((apply_trait_update traits arg) t).isSome = (traits t).isSome := by
  rw [apply_trait_update]
  split_ifs with h
  · by_cases ht : t = arg.1
    · subst ht
      simp only [if_pos rfl, Option.isSome_some]
      exact ((Bool.and_eq_true _ _).mp h).1.symm
    · simp [ht]
  · rfl

/-- C6 amended: a trait argument is applied (and the new value stored
verbatim) if and only if the trait names an existing attribute and the
value passes Python's `isinstance(val, int)` check (booleans included);
there is no `[0, 100]` range validation. Precisely: after processing an
argument list, a known trait holds the last argument value for it that
passes the integer check (or its old value if there is none), and an
unknown trait is never created. -/
theorem update_personality_applies_ints :
    ∀ (args : List (String × PyVal)) (traits : TraitMap) (t : String),
      update_personality traits args t =
        if (traits t).isSome = true then
          match last_int_update args t with
          | some v => some v
          | none => traits t
        else traits t := by
  intro args
  induction args with
  | nil =>
    intro traits t
    rw [update_personality, List.foldl_nil, last_int_update]
    split_ifs <;> rfl
  | cons p ps ih =>
    intro traits t
    have hfold : update_personality traits (p :: ps) =
        update_personality (apply_trait_update traits p) ps := rfl
    rw [hfold, ih, apply_trait_update_isSome]
    by_cases hk : (traits t).isSome = true
    · rw [if_pos hk, if_pos hk]
      rw [last_int_update]
      cases hlast : last_int_update ps t with
      | some v => rfl
      | none =>
        rw [apply_trait_update]
        by_cases hc : ((traits p.1).isSome && isinstance_int p.2) = true
        · rw [if_pos hc]
          by_cases ht : t = p.1
          · subst ht
            rw [if_pos rfl]
            simp [((Bool.and_eq_true _ _).mp hc).2]
          · rw [if_neg ht]
            have hpt : ¬(p.1 = t) := fun h => ht h.symm
            simp [hpt]
        · rw [if_neg hc]
          by_cases hd : (decide (p.1 = t) && isinstance_int p.2) = true
          · exfalso
            have hpt : p.1 = t := of_decide_eq_true ((Bool.and_eq_true _ _).mp hd).1
            exact hc ((Bool.and_eq_true _ _).mpr
              ⟨by rw [hpt]; exact hk, ((Bool.and_eq_true _ _).mp hd).2⟩)
          · simp [hd]
    · rw [if_neg hk, if_neg hk]
      rw [apply_trait_update]
      split_ifs with hc
      · by_cases ht : t = p.1
        · exfalso
          subst ht
          exact hk ((Bool.and_eq_true _ _).mp hc).1
        · simp [ht]
      · rfl

/-! ### C10: response history rotation -/

/-- `os.replace` leaves indices other than its source and destination
untouched. -/
theorem os_replace_untouched {fs : ℕ → Option (List ℕ)} {src dst k : ℕ}
    (hkd : k ≠ dst) (hks : k ≠ src) : os_replace fs src dst k = fs k := by
  rw [os_replace]
  split_ifs with h
  · simp [hkd, hks]
  · rfl

/-- `os.replace` puts the source content at the destination when the source
exists, and otherwise does nothing. -/
theorem os_replace_at_dst {fs : ℕ → Option (List ℕ)} {src dst : ℕ} :
    os_replace fs src dst dst =
      if (fs src).isSome = true then fs src else fs dst := by
  rw [os_replace]
  split_ifs with h
  · simp
  · rfl

/-- `os.replace` removes the source when it exists. -/
theorem os_replace_at_src {fs : ℕ → Option (List ℕ)} {src dst : ℕ}
    (hne : src ≠ dst) :
    os_replace fs src dst src =
      if (fs src).isSome = true then none else fs src := by
  rw [os_replace]
  split_ifs with h
  · simp [hne]
  · rfl

/-- C10: after `rotate_and_save_response_audio(new)`, `response-1.wav` holds
exactly the new audio; `response-2.wav` holds what `response-1.wav` held
before (nothing if it did not exist); `response-3.wav` holds the previous
`response-2.wav` when that existed, else it is untouched; and no index
beyond 3 is ever written, so starting from the managed three slots no
sequence of calls ever produces a fourth response-history file. -/
theorem rotate_response_history (fs : ℕ → Option (List ℕ)) (a : List ℕ) :
    rotate_and_save_response_audio fs a 1 = some a ∧
    rotate_and_save_response_audio fs a 2 = fs 1 ∧
    rotate_and_save_response_audio fs a 3 =
      (if (fs 2).isSome = true then fs 2 else fs 3) ∧
    (∀ k : ℕ, rotate_and_save_response_audio fs a (k + 4) = fs (k + 4)) := by
  refine ⟨rfl, ?_, ?_, ?_⟩
  · simp only [rotate_and_save_response_audio]
    rw [if_neg (by norm_num : ¬(2 : ℕ) = 1)]
    rw [os_replace_at_dst]
    rw [os_replace_untouched (by norm_num : (1 : ℕ) ≠ 3) (by norm_num : (1 : ℕ) ≠ 2)]
    rw [os_replace_at_src (by norm_num : (2 : ℕ) ≠ 3)]
    split_ifs with h1 h2
    · rfl
    · exact (Option.not_isSome_iff_eq_none.mp h1).symm
    · rw [Option.not_isSome_iff_eq_none.mp h2, Option.not_isSome_iff_eq_none.mp h1]
  · simp only [rotate_and_save_response_audio]
    rw [if_neg (by norm_num : ¬(3 : ℕ) = 1)]
    rw [os_replace_untouched (by norm_num : (3 : ℕ) ≠ 2) (by norm_num : (3 : ℕ) ≠ 1)]
    rw [os_replace_at_dst]
  · intro k
    simp only [rotate_and_save_response_audio]
    rw [if_neg (by omega : ¬(k + 4 = 1))]
    rw [os_replace_untouched (by omega : k + 4 ≠ 2) (by omega : k + 4 ≠ 1)]
    rw [os_replace_untouched (by omega : k + 4 ≠ 3) (by omega : k + 4 ≠ 2)]

end Billy
